import Mathlib

/-!
Verification of `cosmos/converter.py`: configuration reconciliation,
interface migration, invariant validation, selector-conflict detection and
the `DbtToAirflowConverter.__init__` orchestration sequence.

Python objects are mutable; the embedding threads the state of every
caller-owned object explicitly: each embedded function returns, next to its
result, the post-call state of the mutable arguments it received.  Python
dictionaries are modelled as association lists (`aget` looks a key up,
`aset` rebinds it in place).  Machine-level concerns (object identity,
reference aliasing) are rendered as state threading: "the callee does not
mutate the argument" is expressed as "the post-state returned for that
argument equals the value passed in".
-/

namespace Cosmos

/-- Python `dict[str, str]` (env-var and dbt-var maps), as an association list. -/
abbrev StrMap := List (String × String)

/-- Python dict lookup `d.get(k)`: the first binding of `k`, if any. -/
def aget {α : Type} : List (String × α) → String → Option α
  | [], _ => none
  | (k2, v) :: rest, k => if k2 = k then some v else aget rest k

/-- Python dict update `d[k] = v`: rebinds the first occurrence of `k`
in place, or appends a new binding when `k` is absent. -/
def aset {α : Type} : List (String × α) → String → α → List (String × α)
  | [], k, v => [(k, v)]
  | (k2, v2) :: rest, k, v =>
    if k2 = k then (k2, v) :: rest else (k2, v2) :: aset rest k v

/-- `cosmos.constants.ExecutionMode` (constants.py is not under src/; the
spec enumerates LOCAL, VIRTUALENV, KUBERNETES, DOCKER and further container
modes, represented here by `AZURE_CONTAINER_INSTANCE`). -/
inductive ExecutionMode where
  | LOCAL
  | VIRTUALENV
  | KUBERNETES
  | DOCKER
  | AZURE_CONTAINER_INSTANCE
deriving DecidableEq, Repr

/-- Truthiness of a `Path | None` field: a `pathlib.Path` object is always
truthy, so only `None` is falsy. -/
def optPathTruthy : Option String → Bool
  | none => false
  | some _ => true

/-- Truthiness of a `str | None` field: `None` and the empty string are falsy. -/
def optStrTruthy : Option String → Bool
  | none => false
  | some s => !s.isEmpty

/-- Truthiness of a `dict | None` field: `None` and the empty dict are falsy. -/
def optMapTruthy : Option StrMap → Bool
  | none => false
  | some m => !m.isEmpty

/-- The profile mapping object carried by a ProfileConfig; the converter only
touches its `profile_args` dictionary (config.py is not under src/). -/
structure ProfileMapping where
  profile_args : StrMap
deriving DecidableEq, Repr

/-- `cosmos.config.ProfileConfig` (config.py is not under src/), restricted to
what converter.py reads.  `profiles_yml_valid` — modelled from the spec: the
outcome of the external `validate_profiles_yml` check ("profile/credential
validation internals" are out of scope, interface only). -/
structure ProfileConfig where
  profile_mapping : Option ProfileMapping
  profiles_yml_valid : Bool
deriving DecidableEq, Repr

/-- `cosmos.config.ProjectConfig` (config.py is not under src/), restricted to
the fields converter.py reads.  `validate_project_ok` — modelled from the
spec: the outcome of the external `validate_project` check (§4.6
`ValidateProject`). -/
structure ProjectConfig where
  dbt_project_path : Option String
  manifest_path : Option String
  project_name : String
  env_vars : Option StrMap
  dbt_vars : Option StrMap
  partial_parse : Bool
  validate_project_ok : Bool
deriving DecidableEq, Repr

/-- `cosmos.config.RenderConfig` (config.py is not under src/), restricted to
the fields converter.py reads. -/
structure RenderConfig where
  project_path : Option String
  select : List String
  exclude : List String
  env_vars : Option StrMap
  load_method : String
  emit_datasets : Bool
deriving DecidableEq, Repr

/-- `cosmos.config.ExecutionConfig` (config.py is not under src/), restricted
to the fields converter.py reads. -/
structure ExecutionConfig where
  project_path : Option String
  execution_mode : ExecutionMode
  dbt_executable_path : Option String
  invocation_mode : Option String
  test_indirect_selection : String
deriving DecidableEq, Repr

/-- A Python value stored in `operator_args` / `task_args`. -/
inductive TaskVal where
  | pynone
  | str (s : String)
  | dict (m : StrMap)
  | bool (b : Bool)
  | path (p : Option String)
  | profile (p : Option ProfileConfig)
deriving DecidableEq, Repr

/-- The string content of a task-argument value (the deprecated `schema`
override is a string in practice). -/
def TaskVal.asString : TaskVal → String
  | .str s => s
  | _ => ""

/-- The `operator_args` / `task_args` dictionaries. -/
abbrev TaskArgs := List (String × TaskVal)

/-- The errors converter.py raises.  All but `attributeError` are
`CosmosValueError` (the spec's single ConfigurationError kind) carrying the
source's distinguishing message; `attributeError` is the Python
`AttributeError` from dereferencing a `None` profile config. -/
inductive CosmosErr where
  | dagRequired
  | projectInvalid
  | profileMandatory (mode : ExecutionMode)
  | pathExclusive
  | envMutex
  | varsMutex
  | renderEnvMutex
  | execPathRequired
  | renderPathRequired
  | selectorConflict (label : String) (values : List String)
  | attributeError
  | profilesYmlInvalid
  | loadFailed
deriving DecidableEq, Repr

/-- The non-fatal deprecation warnings converter.py emits. -/
inductive DeprecationWarn where
  | opArgsEnv
  | opArgsVars
  | taskArgsSchema
deriving DecidableEq, Repr

/-- The external collaborators the converter invokes, in invocation order. -/
inductive ExtEffect where
  | validateProject
  | graphLoad
  | validateProfilesYml
  | graphBuild
deriving DecidableEq, Repr

/-- `copy.deepcopy`: produces a structurally equal, independently owned
value.  In the embedding object identity is replaced by explicit state
threading, so the copy is the same value; independence shows up as the
original being threaded through unchanged. -/
def copy_deepcopy {α : Type} (a : α) : α := a

/-- converter.py lines 26-35, `migrate_to_new_interface`.  First component:
the returned `(execution_config, render_config)` pair (the rewritten deep
copies).  Second component: the post-call states of the three arguments. -/
def migrate_to_new_interface (execution_config : ExecutionConfig)
    (project_config : ProjectConfig) (render_config : RenderConfig) :
    (ExecutionConfig × RenderConfig) ×
      (ExecutionConfig × ProjectConfig × RenderConfig) :=
  let render_copy := copy_deepcopy render_config
  let execution_copy := copy_deepcopy execution_config
  let render_copy := { render_copy with project_path := project_config.dbt_project_path }
  let execution_copy := { execution_copy with project_path := project_config.dbt_project_path }
  ((execution_copy, render_copy), (execution_config, project_config, render_config))

/-- Python `field[:-1]`: the string without its last character (spelled on
the character list, which the kernel evaluates). -/
def strDropLast (s : String) : String := ⟨s.data.dropLast⟩

/-- The remainder of the second list after stripping the first as a prefix,
if it is one. -/
def listStrip : List Char → List Char → Option (List Char)
  | [], cs => some cs
  | _ :: _, [] => none
  | p :: ps, c :: cs => if c = p then listStrip ps cs else none

/-- The remainder of `s` after the label prefix `lab`, if `s` starts with it. -/
def strStripLabel (lab s : String) : Option String :=
  (listStrip lab.data s.data).map fun cs => ⟨cs⟩

/-- Modelled from the spec: `retrieve_by_label` lives in
`cosmos.dbt.selector`, which is not under src/.  Per §4.1 it "extracts all
values under `label` from both lists"; selector items are `label:value`
strings (§3) with the singular label (`tag:`, `path:`), while converter.py
passes the plural field name (`tags`, `paths`). -/
def retrieve_by_label (statements : List String) (field : String) : List String :=
  let lab := strDropLast field ++ ":"
  statements.filterMap fun s => strStripLabel lab s

/-- The value of `{str(item) for item in set(select_items).intersection(exclude_items)}`:
the common values, each once (Python set iteration order is unspecified; the
model lists them in first-occurrence order of the left list). -/
def selector_intersection (xs ys : List String) : List String :=
  (xs.filter fun x => ys.contains x).dedup

/-- converter.py line 83: the watched selector fields `("tags", "paths")`. -/
def check_selector_fields : List String := ["tags", "paths"]

/-- converter.py lines 83-88: the selector loop, raising on the first field
whose select/exclude values intersect (the message names `field[:-1]` and
the intersection). -/
def find_selector_conflict (select exclude : List String) :
    List String → Option CosmosErr
  | [] => none
  | f :: fs =>
    let inter := selector_intersection (retrieve_by_label select f)
      (retrieve_by_label exclude f)
    if inter.isEmpty then find_selector_conflict select exclude fs
    else some (.selectorConflict (strDropLast f) inter)

/-- Result of `validate_arguments`: the post-call state of the (mutable)
`profile_config` argument, the warnings emitted, the external calls made,
and the error raised, if any. -/
structure ValidateArgsResult where
  profile_post : Option ProfileConfig
  warnings : List DeprecationWarn
  effects : List ExtEffect
  error : Option CosmosErr
deriving Repr

/-- converter.py lines 66-97, `validate_arguments`.  The selector loop runs
first; then the deprecated `schema` key is folded into the profile mapping's
`profile_args` (the one place the source assigns into a caller-owned config
object); finally, for LOCAL/VIRTUALENV modes, the external
`validate_profiles_yml` check runs (it raises exactly when the profile is
invalid; dereferencing a `None` profile raises `AttributeError`). -/
def validate_arguments (select exclude : List String)
    (profile_config : Option ProfileConfig) (task_args : TaskArgs)
    (execution_mode : ExecutionMode) : ValidateArgsResult :=
  match find_selector_conflict select exclude check_selector_fields with
  | some e => ⟨profile_config, [], [], some e⟩
  | none =>
    let afterSchema : Option ProfileConfig × List DeprecationWarn × Option CosmosErr :=
      match aget task_args "schema" with
      | none => (profile_config, [], none)
      | some v =>
        match profile_config with
        | none => (none, [.taskArgsSchema], some .attributeError)
        | some pc =>
          match pc.profile_mapping with
          | none => (some pc, [.taskArgsSchema], none)
          | some pm =>
            let pm2 : ProfileMapping :=
              { pm with profile_args := aset pm.profile_args "schema" v.asString }
            (some { pc with profile_mapping := some pm2 }, [.taskArgsSchema], none)
    match afterSchema with
    | (ppost, ws, some e) => ⟨ppost, ws, [], some e⟩
    | (ppost, ws, none) =>
      if execution_mode = ExecutionMode.LOCAL ∨ execution_mode = ExecutionMode.VIRTUALENV then
        match ppost with
        | none => ⟨none, ws, [], some .attributeError⟩
        | some pc =>
          if pc.profiles_yml_valid then ⟨ppost, ws, [.validateProfilesYml], none⟩
          else ⟨ppost, ws, [.validateProfilesYml], some .profilesYmlInvalid⟩
      else ⟨ppost, ws, [], none⟩

/-- converter.py lines 100-155, `validate_initial_user_config`: the warnings
emitted and the error raised, if any.  This function mutates nothing, so no
post-states are returned. -/
def validate_initial_user_config (execution_config : ExecutionConfig)
    (profile_config : Option ProfileConfig) (project_config : ProjectConfig)
    (render_config : RenderConfig) (operator_args : TaskArgs) :
    List DeprecationWarn × Option CosmosErr :=
  if profile_config = none ∧ execution_config.execution_mode ≠ ExecutionMode.KUBERNETES ∧
      execution_config.execution_mode ≠ ExecutionMode.DOCKER then
    ([], some (.profileMandatory execution_config.execution_mode))
  else if optPathTruthy project_config.dbt_project_path = true ∧
      (optPathTruthy render_config.project_path = true ∨
        optPathTruthy execution_config.project_path = true) then
    ([], some .pathExclusive)
  else
    let envPresent := (aget operator_args "env").isSome
    let ws1 := if envPresent then [DeprecationWarn.opArgsEnv] else []
    if envPresent = true ∧ optMapTruthy project_config.env_vars = true then
      (ws1, some .envMutex)
    else
      let varsPresent := (aget operator_args "vars").isSome
      let ws2 := ws1 ++ if varsPresent then [DeprecationWarn.opArgsVars] else []
      if varsPresent = true ∧ optMapTruthy project_config.dbt_vars = true then
        (ws2, some .varsMutex)
      else if optMapTruthy project_config.env_vars = true ∧
          optMapTruthy render_config.env_vars = true then
        (ws2, some .renderEnvMutex)
      else (ws2, none)

/-- converter.py lines 158-179, `validate_adapted_user_config`: the error
raised, if any. -/
def validate_adapted_user_config (execution_config : ExecutionConfig)
    (project_config : ProjectConfig) (render_config : RenderConfig) :
    Option CosmosErr :=
  if optPathTruthy execution_config.project_path = false then
    some .execPathRequired
  else if optPathTruthy project_config.manifest_path = false ∧
      optPathTruthy render_config.project_path = false then
    some .renderPathRequired
  else none

/-- converter.py line 243: `project_config.env_vars or operator_args.get("env")`
(Python `or`: the left dict wins exactly when it is truthy, i.e. non-`None`
and non-empty; an absent key yields `None`). -/
def effective_env_vars (project_config : ProjectConfig)
    (operator_args : TaskArgs) : TaskVal :=
  match project_config.env_vars with
  | some m => if m.isEmpty then (aget operator_args "env").getD .pynone else .dict m
  | none => (aget operator_args "env").getD .pynone

/-- converter.py line 244: `project_config.dbt_vars or operator_args.get("vars")`. -/
def effective_dbt_vars (project_config : ProjectConfig)
    (operator_args : TaskArgs) : TaskVal :=
  match project_config.dbt_vars with
  | some m => if m.isEmpty then (aget operator_args "vars").getD .pynone else .dict m
  | none => (aget operator_args "vars").getD .pynone

/-- converter.py lines 265-277: the `task_args` dictionary — the caller's
`operator_args` overridden by the canonical fields, and then
`dbt_executable_path` / `invocation_mode` added only when truthy. -/
def assemble_task_args (operator_args : TaskArgs)
    (execution_config : ExecutionConfig) (project_config : ProjectConfig)
    (profile_config : Option ProfileConfig) (render_config : RenderConfig)
    (env_vars dbt_vars : TaskVal) : TaskArgs :=
  let t := aset operator_args "project_dir" (.path execution_config.project_path)
  let t := aset t "partial_parse" (.bool project_config.partial_parse)
  let t := aset t "profile_config" (.profile profile_config)
  let t := aset t "emit_datasets" (.bool render_config.emit_datasets)
  let t := aset t "env" env_vars
  let t := aset t "vars" dbt_vars
  let t := if optStrTruthy execution_config.dbt_executable_path then
    aset t "dbt_executable_path" (.str (execution_config.dbt_executable_path.getD ""))
  else t
  if (execution_config.invocation_mode).isSome then
    aset t "invocation_mode" (.str ((execution_config.invocation_mode).getD ""))
  else t

/-- Modelled from the spec: `ExecutionConfig()` with no arguments (§4.6
`DefaultMissingConfigs`, "absent ExecutionConfig/RenderConfig default to
empty canonical instances"; config.py is not under src/).  The default
execution mode is LOCAL. -/
def defaultExecutionConfig : ExecutionConfig :=
  { project_path := none, execution_mode := .LOCAL, dbt_executable_path := none,
    invocation_mode := none, test_indirect_selection := "eager" }

/-- Modelled from the spec: `RenderConfig()` with no arguments (§4.6
`DefaultMissingConfigs`; config.py is not under src/). -/
def defaultRenderConfig : RenderConfig :=
  { project_path := none, select := [], exclude := [], env_vars := none,
    load_method := "automatic", emit_datasets := true }

/-- The host scheduler's DAG object, restricted to its identifier. -/
structure Dag where
  dag_id : String
deriving DecidableEq, Repr

/-- The host scheduler's TaskGroup object, restricted to its owning DAG. -/
structure TaskGroup where
  dag : Option Dag
deriving DecidableEq, Repr

/-- The ambient external world the constructor consults:
`get_parsing_context().dag_id` (the host-reported current DAG identifier,
`None` outside a multi-DAG parse pass) and whether the external
`DbtGraph.load` call succeeds (its failures propagate unchanged). -/
structure Externals where
  current_dag_id : Option String
  load_ok : Bool
deriving DecidableEq, Repr

/-- The constructor's terminal state: the early-exit return of line 223, or
a completed build carrying the assembled `task_args` handed to the external
graph builder. -/
inductive InitOutcome where
  | earlyExit
  | built (task_args : TaskArgs)
deriving Repr

/-- The observable result of `DbtToAirflowConverter.__init__`: its outcome,
the trace of external calls, and the post-call states of every caller-owned
mutable argument. -/
structure InitResult where
  outcome : Except CosmosErr InitOutcome
  effects : List ExtEffect
  project_post : ProjectConfig
  profile_post : Option ProfileConfig
  execution_post : Option ExecutionConfig
  render_post : Option RenderConfig
  operator_args_post : Option TaskArgs
deriving Repr

/-- converter.py lines 199-297, `DbtToAirflowConverter.__init__`, after the
missing-config defaulting (the `or ExecutionConfig()` rebindings shadow the
caller's objects, so receiving the defaulted values is equivalent): the
outcome, the external-effect trace, and the post-call state of the
`profile_config` argument — the one caller-owned object the source assigns
into (the `schema` fold inside `validate_arguments`, line 94).  The opaque
`on_warning_callback` pass-through is omitted. -/
def converter_init_core (project_config : ProjectConfig)
    (profile_config : Option ProfileConfig)
    (execution_config : ExecutionConfig) (render_config : RenderConfig)
    (dag : Option Dag) (task_group : Option TaskGroup)
    (operator_args : TaskArgs) (parse_all_dags : Bool) (ext : Externals) :
    Except CosmosErr InitOutcome × List ExtEffect × Option ProfileConfig :=
  let dag := match dag with
    | some d => some d
    | none => match task_group with
      | some tg => tg.dag
      | none => none
  match dag with
  | none => (.error .dagRequired, [], profile_config)
  | some the_dag =>
    let early_exit := !parse_all_dags &&
      (match ext.current_dag_id with
        | some c => the_dag.dag_id != c
        | none => false)
    if early_exit then (.ok .earlyExit, [], profile_config)
    else if project_config.validate_project_ok = false then
      (.error .projectInvalid, [.validateProject], profile_config)
    else
      match (validate_initial_user_config execution_config profile_config
          project_config render_config operator_args).2 with
      | some e => (.error e, [.validateProject], profile_config)
      | none =>
        let migrated :=
          if optPathTruthy project_config.dbt_project_path then
            (migrate_to_new_interface execution_config project_config render_config).1
          else (execution_config, render_config)
        let execution_config := migrated.1
        let render_config := migrated.2
        match validate_adapted_user_config execution_config project_config render_config with
        | some e => (.error e, [.validateProject], profile_config)
        | none =>
          let env_vars := effective_env_vars project_config operator_args
          let dbt_vars := effective_dbt_vars project_config operator_args
          if ext.load_ok = false then
            (.error .loadFailed, [.validateProject, .graphLoad], profile_config)
          else
            let task_args := assemble_task_args operator_args execution_config
              project_config profile_config render_config env_vars dbt_vars
            let va := validate_arguments render_config.select render_config.exclude
              profile_config task_args execution_config.execution_mode
            match va.error with
            | some e =>
              (.error e, [.validateProject, .graphLoad] ++ va.effects, va.profile_post)
            | none =>
              (.ok (.built task_args),
                [.validateProject, .graphLoad] ++ va.effects ++ [.graphBuild],
                va.profile_post)

/-- converter.py lines 199-297, `DbtToAirflowConverter.__init__`: the
defaulting of absent configs (lines 230-232) followed by the core sequence.
The `project_config`, `execution_config`, `render_config` and
`operator_args` arguments receive no assignment anywhere in the source, so
their post-states are the values passed in; `profile_post` comes from the
core. -/
def converter_init (project_config : ProjectConfig)
    (profile_config : Option ProfileConfig)
    (execution_config0 : Option ExecutionConfig)
    (render_config0 : Option RenderConfig) (dag : Option Dag)
    (task_group : Option TaskGroup) (operator_args0 : Option TaskArgs)
    (parse_all_dags : Bool) (ext : Externals) : InitResult :=
  let core := converter_init_core project_config profile_config
    (execution_config0.getD defaultExecutionConfig)
    (render_config0.getD defaultRenderConfig) dag task_group
    (operator_args0.getD []) parse_all_dags ext
  { outcome := core.1, effects := core.2.1, project_post := project_config,
    profile_post := core.2.2, execution_post := execution_config0,
    render_post := render_config0, operator_args_post := operator_args0 }

theorem aget_aset_self {α : Type} (d : List (String × α)) (k : String) (v : α) :
    aget (aset d k v) k = some v := by
  induction d with
  | nil => simp [aget, aset]
  | cons hd tl ih =>
    obtain ⟨k2, v2⟩ := hd
    by_cases hk : k2 = k <;> simp [aget, aset, hk, ih]

theorem aget_aset_ne {α : Type} (d : List (String × α)) (k k2 : String) (v : α)
    (h : k ≠ k2) : aget (aset d k v) k2 = aget d k2 := by
  induction d with
  | nil => simp [aget, aset, h]
  | cons hd tl ih =>
    obtain ⟨k3, v3⟩ := hd
    by_cases hk : k3 = k
    · subst hk
      simp [aget, aset, h]
    · simp [aget, aset, hk, ih]

/-- C2: for every execution config, project config and render config,
`migrate_to_new_interface` returns a pair `(execution2, render2)` that are
copies of the inputs (equal on every field except the rewritten path) with
`render2.project_path` and `execution2.project_path` both equal to
`project.dbt_project_path`, and the post-call states of the original
`execution` and `render` objects equal their pre-call states (no mutation;
independence of the copies is rendered by this unchanged threading of the
originals). -/
theorem claim_C2_migrate_copies_and_frames (ec : ExecutionConfig)
    (pc : ProjectConfig) (rc : RenderConfig) :
    (migrate_to_new_interface ec pc rc).1.1.project_path = pc.dbt_project_path ∧
    (migrate_to_new_interface ec pc rc).1.2.project_path = pc.dbt_project_path ∧
    (migrate_to_new_interface ec pc rc).1.1 = { ec with project_path := pc.dbt_project_path } ∧
    (migrate_to_new_interface ec pc rc).1.2 = { rc with project_path := pc.dbt_project_path } ∧
    (migrate_to_new_interface ec pc rc).2 = (ec, pc, rc) :=
  ⟨rfl, rfl, rfl, rfl, rfl⟩

/-- C4: `validate_initial_user_config` raises the missing-profile error
exactly when `profile_config` is `None` and the execution mode is neither
KUBERNETES nor DOCKER; in particular with mode KUBERNETES or DOCKER and no
profile config this check passes. -/
theorem claim_C4_profile_mandatory_iff (ec : ExecutionConfig)
    (prof : Option ProfileConfig) (pc : ProjectConfig) (rc : RenderConfig)
    (oa : TaskArgs) :
    (validate_initial_user_config ec prof pc rc oa).2 =
        some (.profileMandatory ec.execution_mode) ↔
      prof = none ∧ ec.execution_mode ≠ ExecutionMode.KUBERNETES ∧
        ec.execution_mode ≠ ExecutionMode.DOCKER := by
  unfold validate_initial_user_config
  repeat' split <;> simp_all

/-- C7: `validate_adapted_user_config` raises exactly when, after migration,
`execution.project_path` is unset, or when the project has no manifest path
configured and `render.project_path` is unset. -/
theorem claim_C7_adapted_iff (ec : ExecutionConfig) (pc : ProjectConfig)
    (rc : RenderConfig) :
    (validate_adapted_user_config ec pc rc).isSome = true ↔
      optPathTruthy ec.project_path = false ∨
        (optPathTruthy pc.manifest_path = false ∧
          optPathTruthy rc.project_path = false) := by
  unfold validate_adapted_user_config
  repeat' split <;> simp_all

/-- C9: the effective environment-variable map equals `project.env_vars`
when that map is non-empty and otherwise equals `operator_args["env"]`
(absent key yielding Python `None`), and likewise for `project.dbt_vars`
against `operator_args["vars"]`; an empty-but-present project map falls
back to the operator-argument value. -/
theorem claim_C9_effective_vars (pc : ProjectConfig) (oa : TaskArgs) :
    (∀ m, pc.env_vars = some m → m ≠ [] → effective_env_vars pc oa = .dict m) ∧
    (pc.env_vars = none ∨ pc.env_vars = some [] →
      effective_env_vars pc oa = (aget oa "env").getD .pynone) ∧
    (∀ m, pc.dbt_vars = some m → m ≠ [] → effective_dbt_vars pc oa = .dict m) ∧
    (pc.dbt_vars = none ∨ pc.dbt_vars = some [] →
      effective_dbt_vars pc oa = (aget oa "vars").getD .pynone) := by
  refine ⟨fun m hm hne => ?_, fun h => ?_, fun m hm hne => ?_, fun h => ?_⟩
  · cases m <;> simp_all [effective_env_vars]
  · rcases h with h | h <;> simp [effective_env_vars, h]
  · cases m <;> simp_all [effective_dbt_vars]
  · rcases h with h | h <;> simp [effective_dbt_vars, h]

/-- C9 witness: an empty-but-present project env map falls back to the
operator-argument value. -/
theorem claim_C9_witness :
    effective_env_vars ⟨none, none, "p", some [], none, true, true⟩
      [("env", .dict [("A", "1")])] = .dict [("A", "1")] :=
  (claim_C9_effective_vars ⟨none, none, "p", some [], none, true, true⟩
    [("env", .dict [("A", "1")])]).2.1 (Or.inr rfl)

/-- C10: in the assembled task-argument bundle the canonical fields always
override identically-named entries of the caller's operator-argument
mapping: whatever `operator_args` holds under "project_dir",
"partial_parse", "profile_config", "emit_datasets", "env" or "vars", the
bundle carries the orchestrator-computed values for those keys. -/
theorem claim_C10_canonical_fields_override (oa : TaskArgs)
    (ec : ExecutionConfig) (pc : ProjectConfig) (prof : Option ProfileConfig)
    (rc : RenderConfig) (env dbt : TaskVal) :
    aget (assemble_task_args oa ec pc prof rc env dbt) "project_dir" =
        some (.path ec.project_path) ∧
    aget (assemble_task_args oa ec pc prof rc env dbt) "partial_parse" =
        some (.bool pc.partial_parse) ∧
    aget (assemble_task_args oa ec pc prof rc env dbt) "profile_config" =
        some (.profile prof) ∧
    aget (assemble_task_args oa ec pc prof rc env dbt) "emit_datasets" =
        some (.bool rc.emit_datasets) ∧
    aget (assemble_task_args oa ec pc prof rc env dbt) "env" = some env ∧
    aget (assemble_task_args oa ec pc prof rc env dbt) "vars" = some dbt := by
  unfold assemble_task_args
  repeat' split <;>
    simp [aget_aset_self, aget_aset_ne]

theorem find_selector_conflict_none_iff (select exclude : List String)
    (fs : List String) :
    find_selector_conflict select exclude fs = none ↔
      ∀ f ∈ fs, selector_intersection (retrieve_by_label select f)
        (retrieve_by_label exclude f) = [] := by
  induction fs with
  | nil => simp [find_selector_conflict]
  | cons f fs ih =>
    simp only [find_selector_conflict]
    by_cases h : (selector_intersection (retrieve_by_label select f)
        (retrieve_by_label exclude f)).isEmpty <;>
      simp_all [List.isEmpty_iff]

theorem find_selector_conflict_some_eq (select exclude : List String)
    (fs : List String) (l : String) (vs : List String)
    (h : find_selector_conflict select exclude fs =
      some (.selectorConflict l vs)) :
    ∃ f ∈ fs, l = strDropLast f ∧
      vs = selector_intersection (retrieve_by_label select f)
        (retrieve_by_label exclude f) ∧ vs ≠ [] := by
  induction fs with
  | nil => simp [find_selector_conflict] at h
  | cons f fs ih =>
    simp only [find_selector_conflict] at h
    by_cases hf : (selector_intersection (retrieve_by_label select f)
        (retrieve_by_label exclude f)).isEmpty
    · rw [if_pos hf] at h
      obtain ⟨g, hg, hrest⟩ := ih h
      exact ⟨g, List.mem_cons_of_mem f hg, hrest⟩
    · rw [if_neg hf] at h
      obtain ⟨hl, hvs⟩ := CosmosErr.selectorConflict.inj (Option.some.inj h)
      exact ⟨f, List.mem_cons_self f fs, hl.symm, hvs.symm, by
        subst hvs
        simpa [List.isEmpty_iff] using hf⟩

/-- C8: for every pair of select and exclude filter lists, selector
validation passes exactly when the values extracted under every watched
field ("tags", "paths") from both lists are disjoint; and when it raises,
the error names the singular label and exactly the (non-empty) intersection
of the values extracted under that field from both lists. -/
theorem claim_C8_selector_conflicts (select exclude : List String) :
    (find_selector_conflict select exclude check_selector_fields = none ↔
      ∀ f ∈ check_selector_fields,
        selector_intersection (retrieve_by_label select f)
          (retrieve_by_label exclude f) = []) ∧
    (∀ l vs,
      find_selector_conflict select exclude check_selector_fields =
          some (.selectorConflict l vs) →
        ∃ f ∈ check_selector_fields, l = strDropLast f ∧
          vs = selector_intersection (retrieve_by_label select f)
            (retrieve_by_label exclude f) ∧ vs ≠ []) :=
  ⟨find_selector_conflict_none_iff select exclude check_selector_fields,
    fun l vs h => find_selector_conflict_some_eq select exclude
      check_selector_fields l vs h⟩

/-- C8 witness: a shared `tag:` value is reported with the singular label
and the intersecting values, and a disjoint pair passes. -/
theorem claim_C8_witness :
    (∃ f ∈ check_selector_fields, "tag" = strDropLast f ∧
      ["x"] = selector_intersection (retrieve_by_label ["tag:x", "path:a"] f)
        (retrieve_by_label ["tag:x"] f) ∧ ["x"] ≠ []) ∧
    find_selector_conflict ["tag:x"] ["tag:y"] check_selector_fields = none :=
  ⟨(claim_C8_selector_conflicts ["tag:x", "path:a"] ["tag:x"]).2 "tag" ["x"]
      (by decide),
    (claim_C8_selector_conflicts ["tag:x"] ["tag:y"]).1.2 (by decide)⟩

/-- C6: with the profile and path checks passing, `validate_initial_user_config`
is fatal exactly when "env" is present in the operator arguments together
with a truthy `project.env_vars`, or "vars" is present together with a
truthy `project.dbt_vars`, or `project.env_vars` and `render.env_vars` are
both truthy; when no error is raised, the deprecation warnings emitted are
exactly those for the deprecated keys present. -/
theorem claim_C6_env_vars_mutex (ec : ExecutionConfig)
    (prof : Option ProfileConfig) (pc : ProjectConfig) (rc : RenderConfig)
    (oa : TaskArgs)
    (hprof : prof ≠ none ∨ ec.execution_mode = ExecutionMode.KUBERNETES ∨
      ec.execution_mode = ExecutionMode.DOCKER)
    (hpath : ¬(optPathTruthy pc.dbt_project_path = true ∧
      (optPathTruthy rc.project_path = true ∨
        optPathTruthy ec.project_path = true))) :
    ((validate_initial_user_config ec prof pc rc oa).2 ≠ none ↔
      ((aget oa "env").isSome = true ∧ optMapTruthy pc.env_vars = true) ∨
      ((aget oa "vars").isSome = true ∧ optMapTruthy pc.dbt_vars = true) ∨
      (optMapTruthy pc.env_vars = true ∧ optMapTruthy rc.env_vars = true)) ∧
    ((validate_initial_user_config ec prof pc rc oa).2 = none →
      ((DeprecationWarn.opArgsEnv ∈ (validate_initial_user_config ec prof pc rc oa).1 ↔
          (aget oa "env").isSome = true) ∧
        (DeprecationWarn.opArgsVars ∈ (validate_initial_user_config ec prof pc rc oa).1 ↔
          (aget oa "vars").isSome = true))) := by
  unfold validate_initial_user_config
  repeat' split <;> simp_all

/-- C6 witness: with a LOCAL-mode profile present, clean paths, "env"
present in the operator arguments and no `project.env_vars`, validation
passes, emitting exactly the env deprecation warning. -/
theorem claim_C6_witness :
    (validate_initial_user_config defaultExecutionConfig (some ⟨none, true⟩)
        ⟨none, none, "p", none, none, true, true⟩ defaultRenderConfig
        [("env", .dict [("A", "1")])]).2 = none ∧
    DeprecationWarn.opArgsEnv ∈
      (validate_initial_user_config defaultExecutionConfig (some ⟨none, true⟩)
        ⟨none, none, "p", none, none, true, true⟩ defaultRenderConfig
        [("env", .dict [("A", "1")])]).1 := by
  have h := claim_C6_env_vars_mutex defaultExecutionConfig (some ⟨none, true⟩)
    ⟨none, none, "p", none, none, true, true⟩ defaultRenderConfig
    [("env", .dict [("A", "1")])] (Or.inl (by decide)) (by decide)
  have h2 : (validate_initial_user_config defaultExecutionConfig (some ⟨none, true⟩)
      ⟨none, none, "p", none, none, true, true⟩ defaultRenderConfig
      [("env", .dict [("A", "1")])]).2 = none := by
    rcases hv : (validate_initial_user_config defaultExecutionConfig (some ⟨none, true⟩)
        ⟨none, none, "p", none, none, true, true⟩ defaultRenderConfig
        [("env", .dict [("A", "1")])]).2 with _ | e
    · rfl
    · exact absurd (h.1.mp (by simp [hv])) (by decide)
  exact ⟨h2, (h.2 h2).1.mpr (by decide)⟩

theorem validate_arguments_profile_post_of_no_schema (sel exc : List String)
    (prof : Option ProfileConfig) (ta : TaskArgs) (mode : ExecutionMode)
    (h : aget ta "schema" = none) :
    (validate_arguments sel exc prof ta mode).profile_post = prof := by
  unfold validate_arguments
  simp only [h]
  repeat' split <;> try rfl

theorem aget_assemble_task_args_schema (oa : TaskArgs) (ec : ExecutionConfig)
    (pc : ProjectConfig) (prof : Option ProfileConfig) (rc : RenderConfig)
    (env dbt : TaskVal) :
    aget (assemble_task_args oa ec pc prof rc env dbt) "schema" =
      aget oa "schema" := by
  unfold assemble_task_args
  repeat' split <;> simp [aget_aset_ne]

/-- C1: with the multi-DAG-parse optimization enabled (`parse_all_dags =
false`), if the host parsing context reports a current DAG identifier that
is non-null and differs from the target DAG's identifier, the constructor
returns immediately: the outcome is the early exit, no error is raised, the
external-effect trace is empty (neither the project-graph loader nor the
graph builder is invoked), and every caller-owned object is untouched. -/
theorem claim_C1_early_exit (pc : ProjectConfig) (prof : Option ProfileConfig)
    (ec0 : Option ExecutionConfig) (rc0 : Option RenderConfig) (d : Dag)
    (tg : Option TaskGroup) (oa0 : Option TaskArgs) (ext : Externals)
    (c : String) (hc : ext.current_dag_id = some c) (hne : d.dag_id ≠ c) :
    converter_init pc prof ec0 rc0 (some d) tg oa0 false ext =
      { outcome := .ok .earlyExit, effects := [], project_post := pc,
        profile_post := prof, execution_post := ec0, render_post := rc0,
        operator_args_post := oa0 } := by
  unfold converter_init converter_init_core
  simp [hc, hne]

/-- C1 witness: a concrete constructor call with a mismatched host-reported
DAG identifier exits early with no effects and no error. -/
theorem claim_C1_witness :
    converter_init ⟨some "/p", none, "proj", none, none, true, true⟩ none none
        none (some ⟨"dag_a"⟩) none none false ⟨some "dag_b", true⟩ =
      { outcome := .ok .earlyExit, effects := [],
        project_post := ⟨some "/p", none, "proj", none, none, true, true⟩,
        profile_post := none, execution_post := none, render_post := none,
        operator_args_post := none } :=
  claim_C1_early_exit ⟨some "/p", none, "proj", none, none, true, true⟩ none
    none none ⟨"dag_a"⟩ none none ⟨some "dag_b", true⟩ "dag_b" rfl (by decide)

theorem validate_initial_errors_on_path_conflict (ec : ExecutionConfig)
    (prof : Option ProfileConfig) (pc : ProjectConfig) (rc : RenderConfig)
    (oa : TaskArgs) (hproj : optPathTruthy pc.dbt_project_path = true)
    (hsplit : optPathTruthy rc.project_path = true ∨
      optPathTruthy ec.project_path = true) :
    (validate_initial_user_config ec prof pc rc oa).2 =
        some (.profileMandatory ec.execution_mode) ∨
      (validate_initial_user_config ec prof pc rc oa).2 = some .pathExclusive := by
  unfold validate_initial_user_config
  split
  · exact Or.inl rfl
  · rw [if_pos ⟨hproj, hsplit⟩]
    exact Or.inr rfl

/-- C5: whenever `project.dbt_project_path` is set together with
`render.project_path` or with `execution.project_path` (and construction
proceeds: a DAG target is given, the early-exit shortcut does not fire and
project validation passes), the constructor raises a configuration error
during initial validation — the effect trace stops at `validateProject`, so
the external project-graph loader is never invoked. -/
theorem claim_C5_ambiguous_paths_fail_early (pc : ProjectConfig)
    (prof : Option ProfileConfig) (ec : ExecutionConfig) (rc : RenderConfig)
    (d : Dag) (tg : Option TaskGroup) (oa0 : Option TaskArgs) (pad : Bool)
    (ext : Externals) (hproj : optPathTruthy pc.dbt_project_path = true)
    (hsplit : optPathTruthy rc.project_path = true ∨
      optPathTruthy ec.project_path = true)
    (hvp : pc.validate_project_ok = true)
    (hreach : pad = true ∨ ext.current_dag_id = none ∨
      ext.current_dag_id = some d.dag_id) :
    ∃ e, converter_init pc prof (some ec) (some rc) (some d) tg oa0 pad ext =
        { outcome := .error e, effects := [.validateProject],
          project_post := pc, profile_post := prof, execution_post := some ec,
          render_post := some rc, operator_args_post := oa0 } ∧
      (e = CosmosErr.profileMandatory ec.execution_mode ∨
        e = CosmosErr.pathExclusive) := by
  have hearly : (!pad && (match ext.current_dag_id with
      | some c => d.dag_id != c
      | none => false)) = false := by
    rcases hreach with h | h | h <;> simp [h]
  rcases validate_initial_errors_on_path_conflict ec prof pc rc (oa0.getD [])
      hproj hsplit with h | h
  · refine ⟨CosmosErr.profileMandatory ec.execution_mode, ?_, Or.inl rfl⟩
    unfold converter_init converter_init_core
    simp [hearly, hvp, h]
  · refine ⟨CosmosErr.pathExclusive, ?_, Or.inr rfl⟩
    unfold converter_init converter_init_core
    simp [hearly, hvp, h]

/-- C5 witness: a concrete construction with both the legacy combined path
and a split render path fails with the path-exclusivity error, with the
effect trace stopping at project validation. -/
theorem claim_C5_witness :
    ∃ e, converter_init ⟨some "/p", none, "proj", none, none, true, true⟩
          (some ⟨none, true⟩) (some ⟨none, .LOCAL, none, none, "eager"⟩)
          (some ⟨some "/r", [], [], none, "automatic", true⟩) (some ⟨"d"⟩)
          none none true ⟨none, true⟩ =
        { outcome := .error e, effects := [.validateProject],
          project_post := ⟨some "/p", none, "proj", none, none, true, true⟩,
          profile_post := some ⟨none, true⟩,
          execution_post := some ⟨none, .LOCAL, none, none, "eager"⟩,
          render_post := some ⟨some "/r", [], [], none, "automatic", true⟩,
          operator_args_post := none } ∧
      (e = CosmosErr.profileMandatory ExecutionMode.LOCAL ∨
        e = CosmosErr.pathExclusive) :=
  claim_C5_ambiguous_paths_fail_early
    ⟨some "/p", none, "proj", none, none, true, true⟩ (some ⟨none, true⟩)
    ⟨none, .LOCAL, none, none, "eager"⟩
    ⟨some "/r", [], [], none, "automatic", true⟩ ⟨"d"⟩ none none true
    ⟨none, true⟩ rfl (Or.inl rfl) rfl (Or.inl rfl)

/-- C3 counterexample: the constructor does mutate a caller-supplied
configuration object.  With `operator_args = {"schema": "s"}` and a profile
config carrying a profile mapping, the call completes and the caller's
profile config has gained the `schema` entry in its mapping's
`profile_args` (converter.py line 94), so its post-state differs from the
value passed in. -/
theorem claim_C3_counterexample :
    (converter_init ⟨some "/p", none, "proj", none, none, true, true⟩
        (some ⟨some ⟨[]⟩, true⟩) none none (some ⟨"d"⟩) none
        (some [("schema", TaskVal.str "s")]) true ⟨none, true⟩).profile_post ≠
      some ⟨some ⟨[]⟩, true⟩ := by decide

/-- C3 (amended): every caller-supplied configuration object except the
profile config is structurally unchanged when the constructor returns or
raises (field rewrites happen only on private deep copies), and the profile
config too is unchanged whenever the operator-argument mapping has no
"schema" key; with a "schema" key present the profile mapping's argument
map may gain that entry. -/
theorem claim_C3_no_mutation_except_schema_fold (pc : ProjectConfig)
    (prof : Option ProfileConfig) (ec0 : Option ExecutionConfig)
    (rc0 : Option RenderConfig) (dag : Option Dag) (tg : Option TaskGroup)
    (oa0 : Option TaskArgs) (pad : Bool) (ext : Externals) :
    (converter_init pc prof ec0 rc0 dag tg oa0 pad ext).project_post = pc ∧
    (converter_init pc prof ec0 rc0 dag tg oa0 pad ext).execution_post = ec0 ∧
    (converter_init pc prof ec0 rc0 dag tg oa0 pad ext).render_post = rc0 ∧
    (converter_init pc prof ec0 rc0 dag tg oa0 pad ext).operator_args_post = oa0 ∧
    (aget (oa0.getD []) "schema" = none →
      (converter_init pc prof ec0 rc0 dag tg oa0 pad ext).profile_post = prof) := by
  refine ⟨rfl, rfl, rfl, rfl, fun hschema => ?_⟩
  show (converter_init_core pc prof (ec0.getD defaultExecutionConfig)
    (rc0.getD defaultRenderConfig) dag tg (oa0.getD []) pad ext).2.2 = prof
  simp only [converter_init_core]
  repeat' split <;> try rfl
  all_goals
    exact validate_arguments_profile_post_of_no_schema _ _ _ _ _
      (by rw [aget_assemble_task_args_schema]; exact hschema)

/-- C3 witness: with no "schema" key in the operator arguments, a completed
construction leaves the caller's profile config (and all other configs)
unchanged. -/
theorem claim_C3_witness :
    (converter_init ⟨some "/p", none, "proj", none, none, true, true⟩
        (some ⟨some ⟨[]⟩, true⟩) none none (some ⟨"d"⟩) none none true
        ⟨none, true⟩).profile_post = some ⟨some ⟨[]⟩, true⟩ ∧
    (converter_init ⟨some "/p", none, "proj", none, none, true, true⟩
        (some ⟨some ⟨[]⟩, true⟩) none none (some ⟨"d"⟩) none none true
        ⟨none, true⟩).project_post = ⟨some "/p", none, "proj", none, none, true, true⟩ :=
  ⟨(claim_C3_no_mutation_except_schema_fold
      ⟨some "/p", none, "proj", none, none, true, true⟩ (some ⟨some ⟨[]⟩, true⟩)
      none none (some ⟨"d"⟩) none none true ⟨none, true⟩).2.2.2.2 rfl,
    (claim_C3_no_mutation_except_schema_fold
      ⟨some "/p", none, "proj", none, none, true, true⟩ (some ⟨some ⟨[]⟩, true⟩)
      none none (some ⟨"d"⟩) none none true ⟨none, true⟩).1⟩

end Cosmos
